import Mathlib

/-!
Verification of the gastown repository's specification against a shallow
embedding of its Go source.  Each component of the source that the claims
touch is translated into executable Lean definitions; theorems about those
definitions settle the claims.
-/

deriving instance DecidableEq for Except

namespace Gastown

/-! ## Identity pool — src/internal/polecat/namepool.go -/

namespace Polecat

/-- `DefaultPoolSize` from namepool.go. -/
def defaultPoolSize : Nat := 50

/-- `DefaultTheme` from namepool.go. -/
def defaultTheme : String := "mad-max"

/-- The "mad-max" entry of `BuiltinThemes` in namepool.go. -/
def madMaxNames : List String :=
  ["furiosa", "nux", "slit", "rictus", "dementus",
   "capable", "toast", "dag", "cheedo", "valkyrie",
   "keeper", "morsov", "ace", "warboy", "imperator",
   "organic", "coma", "splendid", "angharad", "max",
   "immortan", "bullet", "toecutter", "goose", "nightrider",
   "glory", "scrotus", "chumbucket", "corpus", "dinki",
   "prime", "vuvalini", "rockryder", "wretched", "buzzard",
   "gastown", "bullet-farmer", "citadel", "wasteland", "fury",
   "road-warrior", "interceptor", "blackfinger", "wraith", "witness",
   "chrome", "shiny", "mediocre", "guzzoline", "aqua-cola"]

/-- The "minerals" entry of `BuiltinThemes` in namepool.go. -/
def mineralsNames : List String :=
  ["obsidian", "quartz", "jasper", "onyx", "opal",
   "topaz", "garnet", "ruby", "amber", "jade",
   "pearl", "flint", "granite", "basalt", "marble",
   "shale", "slate", "pyrite", "mica", "agate",
   "malachite", "turquoise", "lapis", "emerald", "sapphire",
   "diamond", "amethyst", "citrine", "zircon", "peridot",
   "coral", "jet", "moonstone", "sunstone", "bloodstone",
   "rhodonite", "sodalite", "hematite", "magnetite", "calcite",
   "fluorite", "selenite", "kyanite", "labradorite", "amazonite",
   "chalcedony", "carnelian", "aventurine", "chrysoprase", "heliodor"]

/-- The "wasteland" entry of `BuiltinThemes` in namepool.go. -/
def wastelandNames : List String :=
  ["rust", "chrome", "nitro", "guzzle", "witness",
   "shiny", "fury", "thunder", "dust", "scavenger",
   "radrat", "ghoul", "mutant", "raider", "vault",
   "pipboy", "nuka", "brahmin", "deathclaw", "mirelurk",
   "synth", "institute", "enclave", "brotherhood", "minuteman",
   "railroad", "atom", "crater", "foundation", "refuge",
   "settler", "wanderer", "courier", "lone", "chosen",
   "tribal", "khan", "legion", "ncr", "ranger",
   "overseer", "sentinel", "paladin", "scribe", "initiate",
   "elder", "lancer", "knight", "squire", "proctor"]

/-- `BuiltinThemes` as a lookup function (map key present iff `some`). -/
def builtinThemes (theme : String) : Option (List String) :=
  if theme = "mad-max" then some madMaxNames
  else if theme = "minerals" then some mineralsNames
  else if theme = "wasteland" then some wastelandNames
  else none

/-- The persisted / in-memory state of `NamePool` (namepool.go).
`inUse` models the Go `map[string]bool` as the list of keys set to true;
`stateFile` is the path the pool persists to. -/
@[ext]
structure NamePool where
  rigName : String
  theme : String
  customNames : List String
  inUse : List String
  overflowNext : Nat
  maxSize : Nat
  stateFile : String
deriving Repr, DecidableEq

/-- `NewNamePool` from namepool.go. -/
def newNamePool (rigPath rigName : String) : NamePool :=
  { rigName := rigName
    theme := defaultTheme
    customNames := []
    inUse := []
    overflowNext := defaultPoolSize + 1
    maxSize := defaultPoolSize
    stateFile := rigPath ++ "/.runtime/namepool-state.json" }

/-- `NewNamePoolWithConfig` from namepool.go ("" theme and non-positive
maxSize fall back to the defaults). -/
def newNamePoolWithConfig (rigPath rigName theme : String)
    (customNames : List String) (maxSize : Nat) : NamePool :=
  let theme := if theme = "" then defaultTheme else theme
  let maxSize := if maxSize = 0 then defaultPoolSize else maxSize
  { rigName := rigName
    theme := theme
    customNames := customNames
    inUse := []
    overflowNext := maxSize + 1
    maxSize := maxSize
    stateFile := rigPath ++ "/.runtime/namepool-state.json" }

/-- `getNames` from namepool.go: custom names take precedence, then the
built-in theme, then the default theme. -/
def NamePool.getNames (p : NamePool) : List String :=
  if p.customNames ≠ [] then p.customNames
  else
    match builtinThemes p.theme with
    | some names => names
    | none => madMaxNames

/-- `formatOverflowName` from namepool.go (`fmt.Sprintf("%s-%d", ...)`). -/
def NamePool.formatOverflowName (p : NamePool) (seq : Nat) : String :=
  p.rigName ++ "-" ++ toString seq

/-- `Allocate` from namepool.go: scan the first `maxSize` names in declared
order for one not in use; otherwise hand out the next overflow name. -/
def NamePool.allocate (p : NamePool) : String × NamePool :=
  match (p.getNames.take p.maxSize).find? (fun n => !p.inUse.contains n) with
  | some name => (name, { p with inUse := name :: p.inUse })
  | none =>
      (p.formatOverflowName p.overflowNext, { p with overflowNext := p.overflowNext + 1 })

/-- `isThemedName` from namepool.go. -/
def NamePool.isThemedName (p : NamePool) (name : String) : Bool :=
  p.getNames.contains name

/-- `Release` from namepool.go: only themed names are removed from the
in-use set; anything else is left untouched. -/
def NamePool.release (p : NamePool) (name : String) : NamePool :=
  if p.isThemedName name then { p with inUse := p.inUse.erase name } else p

/-- `MarkInUse` from namepool.go. -/
def NamePool.markInUse (p : NamePool) (name : String) : NamePool :=
  if p.isThemedName name then { p with inUse := p.inUse.insert name } else p

/-- `SetTheme` from namepool.go: unknown themes are an error; otherwise keep
only the in-use names that appear in the new theme, switch the theme and
drop any custom names. -/
def NamePool.setTheme (p : NamePool) (theme : String) : Except String NamePool :=
  match builtinThemes theme with
  | none => .error ("unknown theme: " ++ theme ++ " (available: mad-max, minerals, wasteland)")
  | some newNames =>
      .ok { p with
              theme := theme
              inUse := p.inUse.filter (fun n => newNames.contains n)
              customNames := [] }

/-- The JSON fields `Save` persists (namepool.go): `custom_names` carries
`omitempty`, so an empty list is what a reader of an omitted field sees. -/
structure PoolFile where
  rigName : String
  theme : String
  customNames : List String
  inUse : List String
  overflowNext : Nat
  maxSize : Nat
deriving Repr, DecidableEq

/-- `Save` from namepool.go: serialize the persisted fields. -/
def NamePool.save (p : NamePool) : PoolFile :=
  { rigName := p.rigName
    theme := p.theme
    customNames := p.customNames
    inUse := p.inUse
    overflowNext := p.overflowNext
    maxSize := p.maxSize }

/-- `Load` from namepool.go, applied to the parsed state file (`none`
models a missing file).  Note the order of operations in the source: the
overflow counter is clamped against the *constructor's* `MaxSize` before
`MaxSize` itself is overwritten from disk. -/
def NamePool.load (p : NamePool) (file : Option PoolFile) : NamePool :=
  match file with
  | none => { p with inUse := [], overflowNext := p.maxSize + 1 }
  | some f =>
      let p := if f.theme ≠ "" then { p with theme := f.theme } else p
      let p := if f.customNames ≠ [] then { p with customNames := f.customNames } else p
      let p := { p with inUse := f.inUse }
      let p :=
        { p with overflowNext :=
            if f.overflowNext < p.maxSize + 1 then p.maxSize + 1 else f.overflowNext }
      if 0 < f.maxSize then { p with maxSize := f.maxSize } else p

/-- `Reset` from namepool.go. -/
def NamePool.reset (p : NamePool) : NamePool :=
  { p with inUse := [], overflowNext := p.maxSize + 1 }

/-- `List.find?` returns the element at the first index satisfying the
predicate. -/
theorem find_eq_of_first {α : Type} (q : α → Bool) (l : List α) :
    ∀ (i : Nat) (hi : i < l.length),
      q (l.get ⟨i, hi⟩) = true →
      (∀ (j : Nat) (hj : j < l.length), j < i → q (l.get ⟨j, hj⟩) = false) →
      l.find? q = some (l.get ⟨i, hi⟩) := by
  induction l with
  | nil => intro i hi _ _; simp at hi
  | cons a tl ih =>
    intro i hi hq hmin
    cases i with
    | zero =>
      simp only [List.get] at hq
      simp [List.find?_cons_of_pos, hq]
    | succ n =>
      have ha : q a = false := hmin 0 (by simp) (Nat.succ_pos n)
      rw [List.find?_cons_of_neg _ (by simp [ha])]
      have hn : n < tl.length := by
        simpa [List.length_cons, Nat.succ_lt_succ_iff] using hi
      have hq' : q (tl.get ⟨n, hn⟩) = true := by simpa using hq
      have hmin' : ∀ (j : Nat) (hj : j < tl.length), j < n → q (tl.get ⟨j, hj⟩) = false := by
        intro j hj hjn
        have := hmin (j + 1) (by simpa [List.length_cons, Nat.succ_lt_succ_iff] using hj)
          (Nat.succ_lt_succ hjn)
        simpa using this
      simpa using ih n hn hq' hmin'

/-- When every name in the first `maxSize` entries of the theme list is in
use, `Allocate` hands out the current overflow name and bumps the counter. -/
theorem allocate_of_exhausted (p : NamePool)
    (hall : ∀ n ∈ p.getNames.take p.maxSize, n ∈ p.inUse) :
    p.allocate =
      (p.formatOverflowName p.overflowNext,
        { p with overflowNext := p.overflowNext + 1 }) := by
  have hfind :
      (p.getNames.take p.maxSize).find? (fun n => !p.inUse.contains n) = none := by
    rw [List.find?_eq_none]
    intro n hn
    simpa using hall n hn
  simp only [NamePool.allocate, hfind]

/-- C2: `Allocate` is a left-to-right scan of the (effective) theme list
limited to the first `maxSize` entries: it returns the earliest-declared
free name and marks it in use, and when all of those names are in use it
returns the overflow name `<rig_name>-<overflow_next>` and increments the
overflow counter. -/
theorem allocate_leftmost_scan (p : NamePool) :
    (∀ (i : Nat) (hi : i < (p.getNames.take p.maxSize).length),
        (p.getNames.take p.maxSize).get ⟨i, hi⟩ ∉ p.inUse →
        (∀ (j : Nat) (hj : j < (p.getNames.take p.maxSize).length), j < i →
            (p.getNames.take p.maxSize).get ⟨j, hj⟩ ∈ p.inUse) →
        p.allocate = ((p.getNames.take p.maxSize).get ⟨i, hi⟩,
          { p with inUse := (p.getNames.take p.maxSize).get ⟨i, hi⟩ :: p.inUse }))
    ∧ ((∀ n ∈ p.getNames.take p.maxSize, n ∈ p.inUse) →
        p.allocate =
          (p.formatOverflowName p.overflowNext,
            { p with overflowNext := p.overflowNext + 1 })) := by
  constructor
  · intro i hi hfree hmin
    have hfind :
        (p.getNames.take p.maxSize).find? (fun n => !p.inUse.contains n) =
          some ((p.getNames.take p.maxSize).get ⟨i, hi⟩) := by
      apply find_eq_of_first
      · simpa using hfree
      · intro j hj hji
        simpa using hmin j hj hji
    simp only [NamePool.allocate, hfind]
  · exact allocate_of_exhausted p

/-- Witness for C2: in a fresh default pool with "furiosa" in use, the scan
returns "nux" (index 1); in a size-1 custom pool that is fully used, the
scan overflows to `r-2`. -/
theorem allocate_leftmost_scan_witness :
    (({ (newNamePool "/rig" "testrig") with inUse := ["furiosa"] } : NamePool).allocate.1 =
        "nux")
    ∧ (({ rigName := "r", theme := "mad-max", customNames := ["a"], inUse := ["a"],
          overflowNext := 2, maxSize := 1, stateFile := "" } : NamePool).allocate.1 = "r-2")
    ∧ (({ rigName := "r", theme := "mad-max", customNames := ["a"], inUse := ["a"],
          overflowNext := 2, maxSize := 1, stateFile := "" } : NamePool).allocate.2.overflowNext
        = 3) := by
  refine ⟨?_, ?_, ?_⟩
  · have h := (allocate_leftmost_scan
      ({ (newNamePool "/rig" "testrig") with inUse := ["furiosa"] })).1 1 (by decide)
      (by decide)
      (by intro j hj hj1
          have hj0 : j = 0 := by omega
          subst hj0
          exact List.mem_cons_self _ _)
    rw [h]
    decide
  · have h := (allocate_leftmost_scan
      ({ rigName := "r", theme := "mad-max", customNames := ["a"], inUse := ["a"],
         overflowNext := 2, maxSize := 1, stateFile := "" } : NamePool)).2
      (by decide)
    rw [h]
    decide
  · have h := (allocate_leftmost_scan
      ({ rigName := "r", theme := "mad-max", customNames := ["a"], inUse := ["a"],
         overflowNext := 2, maxSize := 1, stateFile := "" } : NamePool)).2
      (by decide)
    rw [h]

/-- Counterexample for C5: the round trip is NOT the identity as claimed.
A pool with `maxSize = 5` (so `overflowNext = 6`) is saved; a pool
constructed over the same state file by the default constructor
(`NewNamePool`, `maxSize = 50`) loads it, and `Load` clamps the overflow
counter against the constructor's `MaxSize` *before* adopting the saved
`MaxSize`, yielding `overflow_next = 51` instead of `6`. -/
theorem save_load_not_identity :
    ((newNamePool "/rig" "r").load
        (some ((newNamePoolWithConfig "/rig" "r" "mad-max" [] 5).save))).overflowNext ≠
      (newNamePoolWithConfig "/rig" "r" "mad-max" [] 5).overflowNext := by decide

/-- C5 (amended): Save followed by Load is the identity on all persisted
fields (`rig_name`, `theme`, `custom_names`, `in_use`, `overflow_next`,
`max_size`, compared via `save`) provided the loading pool is constructed
with the saved pool's current theme, custom names and max size, and the
saved pool satisfies the constructor-maintained invariants `theme ≠ ""`,
`0 < maxSize` and `maxSize + 1 ≤ overflowNext`. -/
theorem save_load_roundtrip (rigPath : String) (p : NamePool)
    (h1 : p.theme ≠ "") (h2 : 0 < p.maxSize) (h3 : p.maxSize + 1 ≤ p.overflowNext) :
    ((newNamePoolWithConfig rigPath p.rigName p.theme p.customNames p.maxSize).load
        (some p.save)).save = p.save := by
  have hms : ¬ p.maxSize = 0 := by omega
  have hov : ¬ p.overflowNext < p.maxSize + 1 := by omega
  by_cases hc : p.customNames = [] <;>
    simp [newNamePoolWithConfig, NamePool.load, NamePool.save, h1, hms, hov, hc, h2]

/-- Witness for C5's amended theorem at a concrete pool. -/
theorem save_load_roundtrip_witness :
    ((newNamePoolWithConfig "/rig" (newNamePool "/rig" "r").rigName
        (newNamePool "/rig" "r").theme (newNamePool "/rig" "r").customNames
        (newNamePool "/rig" "r").maxSize).load
        (some (newNamePool "/rig" "r").save)).save = (newNamePool "/rig" "r").save :=
  save_load_roundtrip "/rig" (newNamePool "/rig" "r") (by decide) (by decide) (by decide)

/-- C8: `Release` is a no-op outside the themed pool.  It never touches the
overflow counter; releasing a non-themed name (overflow names included)
leaves the pool entirely unchanged; releasing a never-allocated name leaves
the pool unchanged; and once the themed pool is exhausted, successive
allocations hand out `<rig>-(n)`, `<rig>-(n+1)`, ... even when the overflow
name is released in between. -/
theorem release_outside_pool_noop (p : NamePool) (name : String) :
    ((p.release name).overflowNext = p.overflowNext)
    ∧ (p.isThemedName name = false → p.release name = p)
    ∧ (name ∉ p.inUse → p.release name = p)
    ∧ ((∀ n ∈ p.getNames.take p.maxSize, n ∈ p.inUse) →
        p.isThemedName (p.formatOverflowName p.overflowNext) = false →
        p.allocate.1 = p.formatOverflowName p.overflowNext
        ∧ ((p.allocate.2.release p.allocate.1).allocate).1
            = p.formatOverflowName (p.overflowNext + 1)) := by
  refine ⟨?_, ?_, ?_, ?_⟩
  · simp only [NamePool.release]
    split <;> rfl
  · intro h
    simp [NamePool.release, h]
  · intro h
    simp only [NamePool.release]
    split
    · rw [List.erase_of_not_mem h]
    · rfl
  · intro hall hnt
    have h1 := allocate_of_exhausted p hall
    refine ⟨by rw [h1], ?_⟩
    rw [h1]
    have hnt' : ({ p with overflowNext := p.overflowNext + 1 } : NamePool).isThemedName
        (p.formatOverflowName p.overflowNext) = false := hnt
    have hrel : ({ p with overflowNext := p.overflowNext + 1 } : NamePool).release
        (p.formatOverflowName p.overflowNext) =
          { p with overflowNext := p.overflowNext + 1 } := by
      simp [NamePool.release, hnt']
    have hall' : ∀ n ∈ ({ p with overflowNext := p.overflowNext + 1 } : NamePool).getNames.take
        ({ p with overflowNext := p.overflowNext + 1 } : NamePool).maxSize,
        n ∈ ({ p with overflowNext := p.overflowNext + 1 } : NamePool).inUse := hall
    have h2 := allocate_of_exhausted _ hall'
    rw [hrel, h2]
    rfl

/-- Witness for C8 at a concrete exhausted single-name pool. -/
theorem release_outside_pool_noop_witness :
    (({ rigName := "r", theme := "mad-max", customNames := ["a"], inUse := ["a"],
        overflowNext := 2, maxSize := 1, stateFile := "" } : NamePool).release "b" =
      { rigName := "r", theme := "mad-max", customNames := ["a"], inUse := ["a"],
        overflowNext := 2, maxSize := 1, stateFile := "" })
    ∧ (({ rigName := "r", theme := "mad-max", customNames := ["a"], inUse := ["a"],
          overflowNext := 2, maxSize := 1, stateFile := "" } : NamePool).allocate.1 = "r-2")
    ∧ ((({ rigName := "r", theme := "mad-max", customNames := ["a"], inUse := ["a"],
           overflowNext := 2, maxSize := 1, stateFile := "" } : NamePool).allocate.2.release
          ({ rigName := "r", theme := "mad-max", customNames := ["a"], inUse := ["a"],
             overflowNext := 2, maxSize := 1, stateFile := "" } : NamePool).allocate.1).allocate.1
        = "r-3") := by
  refine ⟨?_, ?_, ?_⟩
  · exact (release_outside_pool_noop
      ({ rigName := "r", theme := "mad-max", customNames := ["a"], inUse := ["a"],
         overflowNext := 2, maxSize := 1, stateFile := "" } : NamePool) "b").2.1 (by decide)
  · exact ((release_outside_pool_noop
      ({ rigName := "r", theme := "mad-max", customNames := ["a"], inUse := ["a"],
         overflowNext := 2, maxSize := 1, stateFile := "" } : NamePool) "b").2.2.2
      (by decide) (by decide)).1
  · exact ((release_outside_pool_noop
      ({ rigName := "r", theme := "mad-max", customNames := ["a"], inUse := ["a"],
         overflowNext := 2, maxSize := 1, stateFile := "" } : NamePool) "b").2.2.2
      (by decide) (by decide)).2

/-- Counterexample for C9: `SetTheme` to the pool's current theme is NOT a
no-op in general.  A pool with custom names loses them (and every in-use
custom name) when the theme is re-set, because `SetTheme` filters the
in-use set against the built-in list and clears `CustomNames`. -/
theorem setTheme_same_theme_not_noop :
    ({ rigName := "r", theme := "mad-max", customNames := ["zed"], inUse := ["zed"],
       overflowNext := 51, maxSize := 50, stateFile := "" } : NamePool).setTheme "mad-max" ≠
      .ok ({ rigName := "r", theme := "mad-max", customNames := ["zed"], inUse := ["zed"],
             overflowNext := 51, maxSize := 50, stateFile := "" } : NamePool) := by decide

/-- C9 (amended): `SetTheme` errors exactly when the theme is not a known
built-in theme; on success it keeps in the in-use set exactly the names of
the new theme (equivalently, for pools whose in-use names all come from the
current effective name list, exactly the names present in both lists) and
clears custom names; and `SetTheme` to the current theme is a no-op
provided the pool has no custom names and every in-use name belongs to the
current built-in theme. -/
theorem setTheme_spec (p : NamePool) (t : String) :
    ((∃ e, p.setTheme t = .error e) ↔ builtinThemes t = none)
    ∧ (∀ names, builtinThemes t = some names →
        p.setTheme t = .ok { p with
          theme := t
          inUse := p.inUse.filter (fun n => names.contains n)
          customNames := [] })
    ∧ (∀ names q, builtinThemes t = some names → p.setTheme t = .ok q →
        (∀ n ∈ p.inUse, n ∈ p.getNames) →
        ∀ n, n ∈ q.inUse ↔ n ∈ p.inUse ∧ n ∈ p.getNames ∧ n ∈ names)
    ∧ (∀ ts, builtinThemes p.theme = some ts → p.customNames = [] →
        (∀ n ∈ p.inUse, n ∈ ts) → p.setTheme p.theme = .ok p) := by
  refine ⟨?_, ?_, ?_, ?_⟩
  · cases hb : builtinThemes t <;> simp [NamePool.setTheme, hb]
  · intro names hb
    simp [NamePool.setTheme, hb]
  · intro names q hb hq hinv n
    rw [NamePool.setTheme, hb] at hq
    cases hq
    simp only [List.mem_filter, List.elem_eq_mem, decide_eq_true_eq]
    constructor
    · rintro ⟨hn, hn2⟩
      exact ⟨hn, hinv n hn, hn2⟩
    · rintro ⟨hn, _, hn2⟩
      exact ⟨hn, hn2⟩
  · intro ts hb hc hin
    have hfilter : p.inUse.filter (fun n => ts.contains n) = p.inUse := by
      apply List.filter_eq_self.mpr
      intro a ha
      simpa using hin a ha
    simp only [NamePool.setTheme, hb, hfilter]
    rw [← hc]

/-- Witness for C9's amended theorem: on a default pool with one themed
name in use, re-setting the current theme is the identity, and an unknown
theme is rejected. -/
theorem setTheme_spec_witness :
    (({ (newNamePool "/rig" "r") with inUse := ["furiosa"] } : NamePool).setTheme "mad-max" =
        .ok ({ (newNamePool "/rig" "r") with inUse := ["furiosa"] } : NamePool))
    ∧ (∃ e, ({ (newNamePool "/rig" "r") with inUse := ["furiosa"] } : NamePool).setTheme
        "steampunk" = .error e) := by
  constructor
  · exact (setTheme_spec ({ (newNamePool "/rig" "r") with inUse := ["furiosa"] } : NamePool)
      "mad-max").2.2.2 madMaxNames (by decide) (by decide) (by decide)
  · exact (setTheme_spec ({ (newNamePool "/rig" "r") with inUse := ["furiosa"] } : NamePool)
      "steampunk").1.mpr (by decide)

end Polecat

/-! ## Keepalive — src/unnamed/part_003 (package keepalive) -/

namespace Keepalive

/-- `State` from the keepalive package; timestamps and durations are in
nanoseconds (Go `time.Duration` / `time.Time` differences), and the Go nil
pointer receiver is modelled by `Option State`. -/
structure State where
  lastCommand : String
  timestamp : Int
deriving Repr, DecidableEq

/-- One minute in nanoseconds (`time.Minute`). -/
def minute : Int := 60 * 1000000000

/-- One hour in nanoseconds (`time.Hour`). -/
def hour : Int := 60 * minute

/-- `State.Age`: a nil state reports `24 * time.Hour * 365`; otherwise
`time.Since(s.Timestamp)` at the fixed instant `now`. -/
def age (now : Int) : Option State → Int
  | none => 24 * hour * 365
  | some s => now - s.timestamp

/-- `IsFresh`: non-nil and less than 2 minutes old. -/
def isFresh (now : Int) (s : Option State) : Bool :=
  s.isSome && decide (age now s < 2 * minute)

/-- `IsStale`: non-nil and between 2 and 5 minutes old. -/
def isStale (now : Int) (s : Option State) : Bool :=
  match s with
  | none => false
  | some _ => decide (2 * minute ≤ age now s) && decide (age now s < 5 * minute)

/-- `IsVeryStale`: nil, or at least 5 minutes old. -/
def isVeryStale (now : Int) (s : Option State) : Bool :=
  s.isNone || decide (5 * minute ≤ age now s)

/-- C10: for every keepalive state pointer (including nil) exactly one of
`IsFresh`, `IsStale`, `IsVeryStale` holds, and the three predicates mean
age < 2 min, age in [2 min, 5 min), and nil-or-age ≥ 5 min respectively. -/
theorem keepalive_exactly_one (now : Int) (s : Option State) :
    ((isFresh now s = true ∧ isStale now s = false ∧ isVeryStale now s = false)
      ∨ (isFresh now s = false ∧ isStale now s = true ∧ isVeryStale now s = false)
      ∨ (isFresh now s = false ∧ isStale now s = false ∧ isVeryStale now s = true))
    ∧ (isFresh now s = true ↔ s.isSome = true ∧ age now s < 2 * minute)
    ∧ (isStale now s = true ↔
        s.isSome = true ∧ 2 * minute ≤ age now s ∧ age now s < 5 * minute)
    ∧ (isVeryStale now s = true ↔ (s = none ∨ 5 * minute ≤ age now s)) := by
  cases s with
  | none => simp [isFresh, isStale, isVeryStale, age]
  | some st =>
      simp only [isFresh, isStale, isVeryStale, age, Option.isSome_some, Option.isNone_some,
        Bool.true_and, Bool.false_or, decide_eq_true_eq, decide_eq_false_iff_not,
        Bool.and_eq_true, Bool.and_eq_false_iff, true_and, and_true, iff_true, false_or, minute, reduceCtorEq]
      omega

end Keepalive

/-! ## Wisp store — src/internal/wisp (io.go and the wisp types file) -/

namespace Wisp

/-- `TypeSlungWork` from the wisp types file. -/
def typeSlungWork : String := "slung-work"

/-- `WispDir` from the wisp types file. -/
def wispDir : String := ".beads-wisp"

/-- `SlungWork` from the wisp types file, with the embedded `Wisp` header
flattened into the struct (as the Go JSON encoding does). -/
structure SlungWork where
  type : String
  createdAt : Int
  createdBy : String
  beadId : String
  context : String
  subject : String
deriving Repr, DecidableEq

/-- `NewSlungWork` from the wisp types file. -/
def newSlungWork (beadId createdBy : String) (now : Int) : SlungWork :=
  { type := typeSlungWork
    createdAt := now
    createdBy := createdBy
    beadId := beadId
    context := ""
    subject := "" }

/-- A file in the wisp store as the JSON decoder sees it: either bytes that
unmarshal into a `SlungWork` value, or anything else. -/
inductive FileContent
  | slungJSON (sw : SlungWork)
  | malformed
deriving Repr, DecidableEq

/-- The filesystem fragment the wisp store operates on: path → file. -/
def Store := String → Option FileContent

/-- `HookFilename` from the wisp types file. -/
def hookFilename (agent : String) : String := "hook-" ++ agent ++ ".json"

/-- `WispPath` from io.go. -/
def wispPath (root filename : String) : String := root ++ "/" ++ wispDir ++ "/" ++ filename

/-- `HookPath` from io.go. -/
def hookPath (root agent : String) : String := wispPath root (hookFilename agent)

/-- `WriteSlungWork` from io.go: ensure the wisp directory and (atomically,
via temp file + rename) write the JSON of `sw` to the agent's hook path. -/
def writeSlungWork (st : Store) (root agent : String) (sw : SlungWork) : Store :=
  fun p => if p = hookPath root agent then some (.slungJSON sw) else st p

/-- The two sentinel errors `ErrNoHook` and `ErrInvalidWisp` of io.go. -/
inductive ReadHookError
  | noHook
  | invalidWisp
deriving Repr, DecidableEq

/-- `ReadHook` from io.go: missing file is `ErrNoHook`; undecodable JSON or
a wrong `type` field is `ErrInvalidWisp`; otherwise the slung work. -/
def readHook (st : Store) (root agent : String) : Except ReadHookError SlungWork :=
  match st (hookPath root agent) with
  | none => .error .noHook
  | some .malformed => .error .invalidWisp
  | some (.slungJSON sw) =>
      if sw.type ≠ typeSlungWork then .error .invalidWisp else .ok sw

/-- `BurnHook` from io.go: remove the hook file; already-missing is fine. -/
def burnHook (st : Store) (root agent : String) : Store :=
  fun p => if p = hookPath root agent then none else st p

/-- C6: writing slung work to an agent's hook and reading it back yields
the same wisp; after burning the hook a read reports the no-hook error; a
read of a non-existent hook is the no-hook error; and the no-hook error is
distinct from the invalid-format error. -/
theorem wisp_hook_roundtrip (st st2 : Store) (root agent : String) (sw : SlungWork)
    (h : sw.type = typeSlungWork) :
    readHook (writeSlungWork st root agent sw) root agent = .ok sw
    ∧ readHook (burnHook st2 root agent) root agent = .error .noHook
    ∧ (st2 (hookPath root agent) = none → readHook st2 root agent = .error .noHook)
    ∧ ReadHookError.noHook ≠ ReadHookError.invalidWisp := by
  refine ⟨?_, ?_, ?_, by decide⟩
  · simp [readHook, writeSlungWork, h]
  · simp [readHook, burnHook]
  · intro h2
    simp [readHook, h2]

/-- Witness for C6 on a concrete store, agent and wisp. -/
theorem wisp_hook_roundtrip_witness :
    readHook (writeSlungWork (fun _ => none) "/town/rig" "gastown/furiosa"
        (newSlungWork "gt-1" "crew/dan" 0)) "/town/rig" "gastown/furiosa" =
      .ok (newSlungWork "gt-1" "crew/dan" 0)
    ∧ readHook (burnHook (fun _ => none) "/town/rig" "gastown/furiosa")
        "/town/rig" "gastown/furiosa" = .error .noHook :=
  ⟨(wisp_hook_roundtrip (fun _ => none) (fun _ => none) "/town/rig" "gastown/furiosa"
      (newSlungWork "gt-1" "crew/dan" 0) rfl).1,
   (wisp_hook_roundtrip (fun _ => none) (fun _ => none) "/town/rig" "gastown/furiosa"
      (newSlungWork "gt-1" "crew/dan" 0) rfl).2.1⟩

end Wisp

/-! ## Identity lock — src/internal/config/loader.go -/

namespace Config

/-- `LockInfo` from loader.go (`acquired_at` as a timestamp). -/
structure LockInfo where
  pid : Int
  acquiredAt : Int
  sessionID : String
  hostname : String
deriving Repr, DecidableEq

/-- The lock file's on-disk state: absent, unparseable JSON, or a valid
`LockInfo`. -/
inductive LockFile
  | absent
  | corrupt
  | valid (info : LockInfo)
deriving Repr, DecidableEq

/-- The process environment `Acquire` consults: which PIDs are live, the
current PID, the clock and the hostname. -/
structure Env where
  livePids : Int → Bool
  currentPid : Int
  now : Int
  hostname : String

/-- `processExists` from loader.go: non-positive PIDs never exist;
otherwise the null signal succeeds iff the process is live. -/
def processExists (env : Env) (pid : Int) : Bool :=
  if pid ≤ 0 then false else env.livePids pid

/-- `LockInfo.IsStale` from loader.go. -/
def isStale (env : Env) (info : LockInfo) : Bool :=
  !processExists env info.pid

/-- The two read errors `ErrNotLocked` and `ErrInvalidLock` of loader.go. -/
inductive ReadError
  | notLocked
  | invalidLock
deriving Repr, DecidableEq

/-- `Lock.Read` from loader.go, applied to the lock file state. -/
def readLock : LockFile → Except ReadError LockInfo
  | .absent => .error .notLocked
  | .corrupt => .error .invalidLock
  | .valid info => .ok info

/-- The "worker is locked by another agent" error of `Acquire`, carrying
the observed PID, session and acquisition time. -/
structure LockedError where
  pid : Int
  sessionID : String
  acquiredAt : Int
deriving Repr, DecidableEq

/-- `Lock.write` from loader.go: the fresh lock file content (current PID,
current time, given session, hostname). -/
def writeLock (env : Env) (sessionID : String) : LockFile :=
  .valid { pid := env.currentPid
           acquiredAt := env.now
           sessionID := sessionID
           hostname := env.hostname }

/-- `Lock.Acquire` from loader.go: read the lock; a stale holder is removed
and the lock re-acquired; our own PID refreshes; another live process is a
`LockedError`; a read error (absent or corrupt file) falls through to
writing a fresh lock. -/
def acquire (env : Env) (file : LockFile) (sessionID : String) :
    Except LockedError LockFile :=
  match readLock file with
  | .ok info =>
      if isStale env info then .ok (writeLock env sessionID)
      else if info.pid = env.currentPid then .ok (writeLock env sessionID)
      else
        .error { pid := info.pid
                 sessionID := info.sessionID
                 acquiredAt := info.acquiredAt }
  | .error _ => .ok (writeLock env sessionID)

/-- C3: `Acquire` succeeds — writing a fresh lock with the current PID —
whenever the lock file is absent or records a dead PID (the stale lock is
removed and overwritten), succeeds refreshing when the recorded PID is the
current process, and fails with the locked-by-another-agent error carrying
the observed PID, session and acquisition time exactly when the recorded
PID is a different live process. -/
theorem lock_acquire_spec (env : Env) (file : LockFile) (sid : String) :
    (∀ res, acquire env file sid = .ok res → res = writeLock env sid)
    ∧ ((∃ e, acquire env file sid = .error e) ↔
        ∃ info, file = .valid info ∧ processExists env info.pid = true ∧
          info.pid ≠ env.currentPid)
    ∧ (∀ info, file = .valid info → processExists env info.pid = true →
        info.pid ≠ env.currentPid →
        acquire env file sid =
          .error { pid := info.pid
                   sessionID := info.sessionID
                   acquiredAt := info.acquiredAt })
    ∧ (∀ info, file = .valid info → processExists env info.pid = false →
        acquire env file sid = .ok (writeLock env sid)) := by
  refine ⟨?_, ?_, ?_, ?_⟩
  · intro res h
    cases file with
    | absent =>
        simp only [acquire, readLock, Except.ok.injEq] at h
        exact h.symm
    | corrupt =>
        simp only [acquire, readLock, Except.ok.injEq] at h
        exact h.symm
    | valid info =>
        by_cases h1 : processExists env info.pid = true
        · by_cases h2 : info.pid = env.currentPid
          · simp only [acquire, readLock, isStale, h2, eq_self_iff_true, if_true, ite_self,
              Except.ok.injEq] at h
            exact h.symm
          · simp [acquire, readLock, isStale, h1, h2] at h
        · simp only [acquire, readLock, isStale] at h
          rw [Bool.not_eq_true] at h1
          simp only [h1, Bool.not_false, if_true, Except.ok.injEq] at h
          exact h.symm
  · constructor
    · rintro ⟨e, he⟩
      cases file with
      | absent => simp [acquire, readLock] at he
      | corrupt => simp [acquire, readLock] at he
      | valid info =>
          by_cases h1 : processExists env info.pid = true
          · by_cases h2 : info.pid = env.currentPid
            · simp [acquire, readLock, isStale, h1, h2] at he
            · exact ⟨info, rfl, h1, h2⟩
          · rw [Bool.not_eq_true] at h1
            simp [acquire, readLock, isStale, h1] at he
    · rintro ⟨info, rfl, hlive, hne⟩
      refine ⟨{ pid := info.pid, sessionID := info.sessionID, acquiredAt := info.acquiredAt }, ?_⟩
      simp [acquire, readLock, isStale, hlive, hne]
  · rintro info rfl hlive hne
    simp [acquire, readLock, isStale, hlive, hne]
  · rintro info rfl hdead
    simp [acquire, readLock, isStale, hdead]

/-- A concrete environment for the C3 witness: PID 42 is the only live
process and the current process is PID 7. -/
def envW : Env :=
  { livePids := fun p => decide (p = 42)
    currentPid := 7
    now := 100
    hostname := "host" }

/-- The lock file of a live foreign holder (PID 42), for the C3 witness. -/
def lockW : LockInfo :=
  { pid := 42, acquiredAt := 5, sessionID := "s42", hostname := "host" }

/-- The lock file of a dead holder (PID 9), for the C3 witness. -/
def lockW9 : LockInfo :=
  { pid := 9, acquiredAt := 5, sessionID := "s9", hostname := "host" }

/-- Witness for C3: with PID 42 the only live process, an acquire by PID 7
against a lock held by 42 fails with the locked error carrying 42's data,
while an acquire against a dead PID 9 succeeds with a fresh lock. -/
theorem lock_acquire_spec_witness :
    (acquire envW (.valid lockW) "mysession" =
      .error { pid := 42, sessionID := "s42", acquiredAt := 5 })
    ∧ (acquire envW (.valid lockW9) "mysession" = .ok (writeLock envW "mysession")) :=
  ⟨(lock_acquire_spec envW (.valid lockW) "mysession").2.2.1 lockW rfl
      (by decide) (by decide),
   (lock_acquire_spec envW (.valid lockW9) "mysession").2.2.2 lockW9 rfl (by decide)⟩

end Config

/-! ## Worker manager — src/internal/polecat/manager.go -/

namespace Polecat

/-- Modelled from the spec: `git.UncommittedWorkStatus` lives in the
external git package; per spec §7 the `HasUncommittedWork` payload
enumerates stashes, unpushed commits, staged and unstaged changes. -/
structure UncommittedWorkStatus where
  stashCount : Nat
  unpushedCommits : Nat
  stagedChanges : Bool
  unstagedChanges : Bool
deriving Repr, DecidableEq

/-- Modelled from the spec: `Status.Clean()` of the external git package —
clean means no stashes, no unpushed commits and no staged or unstaged
changes. -/
def UncommittedWorkStatus.clean (s : UncommittedWorkStatus) : Bool :=
  s.stashCount == 0 && s.unpushedCommits == 0 && !s.stagedChanges && !s.unstagedChanges

/-- The outcome of the uncommitted-work guard: refuse with an
`UncommittedWorkError` carrying the status, or continue. -/
inductive GuardDecision
  | blocked (st : UncommittedWorkStatus)
  | proceed
deriving Repr, DecidableEq

/-- The safety-check prefix of `Manager.RemoveWithOptions` (manager.go).
`nuclear` bypasses everything; otherwise, when `CheckUncommittedWork`
succeeds (`some status`) and the status is not clean, `force` still blocks
on stashes or unpushed commits and only relaxes the uncommitted-changes
check; a failing check (`none`) skips the guard. -/
def removeWithOptionsCheck (force nuclear : Bool)
    (check : Option UncommittedWorkStatus) : GuardDecision :=
  if !nuclear then
    match check with
    | some status =>
        if !status.clean then
          if force then
            if status.stashCount > 0 ∨ status.unpushedCommits > 0 then .blocked status
            else .proceed
          else .blocked status
        else .proceed
    | none => .proceed
  else .proceed

/-- The safety-check prefix of `Manager.Recreate` (manager.go): with
`force` the uncommitted-work check is skipped entirely. -/
def recreateCheck (force : Bool) (check : Option UncommittedWorkStatus) : GuardDecision :=
  if !force then
    match check with
    | some status => if !status.clean then .blocked status else .proceed
    | none => .proceed
  else .proceed

/-- Counterexample for C7: a worktree with unstaged changes only (so it has
uncommitted work, but no stashes and no unpushed commits).  `Recreate` with
force=true does NOT block on it — it skips the uncommitted-work check
entirely — contradicting the claim that recreate(force=true) "only blocks
on uncommitted work". -/
theorem recreate_force_skips_all_checks :
    recreateCheck true
        (some { stashCount := 0, unpushedCommits := 0,
                stagedChanges := false, unstagedChanges := true }) = .proceed
    ∧ ({ stashCount := 0, unpushedCommits := 0, stagedChanges := false,
           unstagedChanges := true } : UncommittedWorkStatus).clean = false := by decide

/-- C7 (amended): remove with force=true (nuclear=false) relaxes only the
uncommitted-changes check — it refuses exactly when the worktree has
stashes or unpushed commits — while recreate with force=true skips the
uncommitted-work check entirely and never refuses (not even on uncommitted
changes, stashes or unpushed commits); the asymmetry between remove and
recreate is preserved. -/
theorem remove_recreate_asymmetry (s : UncommittedWorkStatus)
    (c : Option UncommittedWorkStatus) :
    (removeWithOptionsCheck true false (some s) = .blocked s ↔
        0 < s.stashCount ∨ 0 < s.unpushedCommits)
    ∧ recreateCheck true c = .proceed
    ∧ (0 < s.stashCount →
        removeWithOptionsCheck true false (some s) = .blocked s
        ∧ recreateCheck true (some s) = .proceed) := by
  have hiff : removeWithOptionsCheck true false (some s) = .blocked s ↔
      0 < s.stashCount ∨ 0 < s.unpushedCommits := by
    by_cases hcl : s.clean = true
    · have h0 := hcl
      simp only [UncommittedWorkStatus.clean, Bool.and_eq_true, beq_iff_eq,
        Bool.not_eq_true'] at h0
      simp only [removeWithOptionsCheck, Bool.not_false, if_true, hcl, Bool.not_true,
        Bool.false_eq_true, if_false]
      constructor
      · intro h
        cases h
      · intro h
        omega
    · have hcl' : s.clean = false := by
        simpa using hcl
      by_cases hsp : 0 < s.stashCount ∨ 0 < s.unpushedCommits
      · simp [removeWithOptionsCheck, hcl', hsp]
      · simp [removeWithOptionsCheck, hcl', hsp]
  refine ⟨hiff, ?_, fun h => ⟨hiff.mpr (Or.inl h), ?_⟩⟩
  · cases c <;> simp [recreateCheck]
  · simp [recreateCheck]

/-- Witness for C7 at a worktree with one stash: remove(force=true) refuses
and recreate(force=true) proceeds. -/
theorem remove_recreate_asymmetry_witness :
    removeWithOptionsCheck true false
        (some { stashCount := 1, unpushedCommits := 0, stagedChanges := false,
                unstagedChanges := false }) =
      .blocked { stashCount := 1, unpushedCommits := 0, stagedChanges := false,
                 unstagedChanges := false }
    ∧ recreateCheck true
        (some { stashCount := 1, unpushedCommits := 0, stagedChanges := false,
                unstagedChanges := false }) = .proceed :=
  (remove_recreate_asymmetry
    { stashCount := 1, unpushedCommits := 0, stagedChanges := false,
      unstagedChanges := false }
    (some { stashCount := 1, unpushedCommits := 0, stagedChanges := false,
            unstagedChanges := false })).2.2 (by decide)

end Polecat

/-! ## Merge engine — the refinery engineer file concatenated in
src/internal/polecat/namepool.go (package refinery) -/

namespace Refinery

/-- `MergeQueueConfig` from the refinery engineer file; the poll interval
in nanoseconds. -/
structure MergeQueueConfig where
  enabled : Bool
  targetBranch : String
  integrationBranches : Bool
  onConflict : String
  runTests : Bool
  testCommand : String
  deleteMergedBranches : Bool
  retryFlakyTests : Int
  pollInterval : Int
  maxConcurrent : Int
deriving Repr, DecidableEq

/-- `DefaultMergeQueueConfig` from the refinery engineer file. -/
def defaultMergeQueueConfig : MergeQueueConfig :=
  { enabled := true
    targetBranch := "main"
    integrationBranches := true
    onConflict := "assign_back"
    runTests := true
    testCommand := ""
    deleteMergedBranches := true
    retryFlakyTests := 1
    pollInterval := 30 * 1000000000
    maxConcurrent := 1 }

/-- `ProcessResult` from the refinery engineer file. -/
structure ProcessResult where
  success : Bool := false
  mergeCommit : String := ""
  error : String := ""
  conflict : Bool := false
  testsFailed : Bool := false
deriving Repr, DecidableEq

/-- The behaviour of the external world during a test run: `passes n` is
whether the `n`-th invocation of the test command exits 0 (`cmd.Run()`
returns nil), and `canceledAfter n` whether `ctx.Err()` is non-nil when it
is consulted after a failed attempt `n`. -/
structure TestEnv where
  passes : Nat → Bool
  canceledAfter : Nat → Bool

/-- The retry loop of `Engineer.runTests`, attempt by attempt (attempts are
numbered from 1; `fuel` is the number of attempts left).  A passing attempt
is a success; after a failing attempt a canceled context reports "test run
canceled" without the TestsFailed flag; exhausting the attempts is a
TestsFailed failure.  The exec error text of the last attempt is abstracted
out of the final message. -/
def runTestsFrom (env : TestEnv) (maxRetries : Int) : Nat → Nat → ProcessResult
  | _, 0 =>
      { success := false
        testsFailed := true
        error := "tests failed after " ++ toString maxRetries ++ " attempts" }
  | attempt, fuel + 1 =>
      if env.passes attempt then { success := true }
      else if env.canceledAfter attempt then
        { success := false, error := "test run canceled" }
      else runTestsFrom env maxRetries (attempt + 1) fuel

/-- The `maxRetries` local of `Engineer.runTests`: `RetryFlakyTests`,
floored at 1. -/
def maxRetriesOf (cfg : MergeQueueConfig) : Int :=
  if cfg.retryFlakyTests < 1 then 1 else cfg.retryFlakyTests

/-- The total number of attempts `runTests` makes. -/
def maxAttempts (cfg : MergeQueueConfig) : Nat := (maxRetriesOf cfg).toNat

/-- `Engineer.runTests` from the refinery engineer file: an empty test
command short-circuits to success; otherwise run the command with
`max(RetryFlakyTests, 1)` total attempts. -/
def runTests (env : TestEnv) (cfg : MergeQueueConfig) : ProcessResult :=
  if cfg.testCommand = "" then { success := true }
  else runTestsFrom env (maxRetriesOf cfg) 1 (maxAttempts cfg)

/-- Step 4 of `Engineer.doMerge`: the validation step runs the tests iff
`run_tests` is enabled and a test command is configured. -/
def testStep (env : TestEnv) (cfg : MergeQueueConfig) : Option ProcessResult :=
  if cfg.runTests && (cfg.testCommand != "") then some (runTests env cfg) else none

/-- When every attempt in range fails and no cancelation is observed, the
retry loop exhausts its fuel and reports a TestsFailed failure. -/
theorem runTestsFrom_all_fail (env : TestEnv) (m : Int) (fuel : Nat) :
    ∀ a : Nat,
      (∀ i, a ≤ i → i < a + fuel → env.passes i = false) →
      (∀ i, a ≤ i → i < a + fuel → env.canceledAfter i = false) →
      runTestsFrom env m a fuel =
        { success := false
          testsFailed := true
          error := "tests failed after " ++ toString m ++ " attempts" } := by
  induction fuel with
  | zero => intro a _ _; rfl
  | succ fuel ih =>
      intro a hp hc
      have hpa : env.passes a = false := hp a le_rfl (by omega)
      have hca : env.canceledAfter a = false := hc a le_rfl (by omega)
      simp only [runTestsFrom, hpa, hca, Bool.false_eq_true, if_false]
      exact ih (a + 1) (fun i hi1 hi2 => hp i (by omega) (by omega))
        (fun i hi1 hi2 => hc i (by omega) (by omega))

/-- When the attempts up to `i` fail, no earlier cancelation was observed
and the context is canceled after attempt `i`, the loop reports the
canceled result. -/
theorem runTestsFrom_canceled (env : TestEnv) (m : Int) (fuel : Nat) :
    ∀ a i : Nat, a ≤ i → i < a + fuel →
      (∀ j, a ≤ j → j ≤ i → env.passes j = false) →
      (∀ j, a ≤ j → j < i → env.canceledAfter j = false) →
      env.canceledAfter i = true →
      runTestsFrom env m a fuel =
        { success := false, error := "test run canceled" } := by
  induction fuel with
  | zero => intro a i h1 h2 _ _ _; omega
  | succ fuel ih =>
      intro a i h1 h2 hp hnc hc
      by_cases hai : i = a
      · subst hai
        have hpa : env.passes i = false := hp i le_rfl le_rfl
        simp only [runTestsFrom, hpa, hc, Bool.false_eq_true, if_false, if_true]
      · have hpa : env.passes a = false := hp a le_rfl (by omega)
        have hca : env.canceledAfter a = false := hnc a le_rfl (by omega)
        simp only [runTestsFrom, hpa, hca, Bool.false_eq_true, if_false]
        exact ih (a + 1) i (by omega) (by omega)
          (fun j hj1 hj2 => hp j (by omega) hj2)
          (fun j hj1 hj2 => hnc j (by omega) hj2) hc

/-- When attempt `i` passes and every earlier attempt failed without an
observed cancelation, the loop reports success. -/
theorem runTestsFrom_pass (env : TestEnv) (m : Int) (fuel : Nat) :
    ∀ a i : Nat, a ≤ i → i < a + fuel →
      env.passes i = true →
      (∀ j, a ≤ j → j < i → env.passes j = false ∧ env.canceledAfter j = false) →
      runTestsFrom env m a fuel = { success := true } := by
  induction fuel with
  | zero => intro a i h1 h2 _ _; omega
  | succ fuel ih =>
      intro a i h1 h2 hp hmin
      by_cases hai : i = a
      · subst hai
        simp only [runTestsFrom, hp, if_true]
      · obtain ⟨hpa, hca⟩ := hmin a le_rfl (by omega)
        simp only [runTestsFrom, hpa, hca, Bool.false_eq_true, if_false]
        exact ih (a + 1) i (by omega) (by omega) hp
          (fun j hj1 hj2 => hmin j (by omega) hj2)

/-- C4: when `run_tests` is enabled and a test command is configured, the
validation step runs the test command with `max(retry_flaky_tests, 1)`
total attempts, retrying on failure; a cancelation of the enclosing
context aborts the run and reports "test run canceled" with the
TestsFailed flag NOT set — distinct from the TestsFailed report produced
when the attempts are exhausted — and a passing attempt is a success. -/
theorem runTests_retry_and_cancel (env : TestEnv) (cfg : MergeQueueConfig)
    (h1 : cfg.runTests = true) (h2 : cfg.testCommand ≠ "") :
    testStep env cfg = some (runTests env cfg)
    ∧ ((∀ i, 1 ≤ i → i ≤ maxAttempts cfg → env.passes i = false) →
       (∀ i, 1 ≤ i → i ≤ maxAttempts cfg → env.canceledAfter i = false) →
        runTests env cfg =
          { success := false
            testsFailed := true
            error := "tests failed after " ++ toString (maxRetriesOf cfg) ++ " attempts" })
    ∧ (∀ i, 1 ≤ i → i ≤ maxAttempts cfg →
        (∀ j, 1 ≤ j → j ≤ i → env.passes j = false) →
        (∀ j, 1 ≤ j → j < i → env.canceledAfter j = false) →
        env.canceledAfter i = true →
        runTests env cfg =
          { success := false, error := "test run canceled", testsFailed := false })
    ∧ (∀ i, 1 ≤ i → i ≤ maxAttempts cfg → env.passes i = true →
        (∀ j, 1 ≤ j → j < i → env.passes j = false ∧ env.canceledAfter j = false) →
        runTests env cfg = { success := true }) := by
  refine ⟨?_, ?_, ?_, ?_⟩
  · simp [testStep, h1, h2]
  · intro hp hc
    rw [runTests, if_neg h2]
    exact runTestsFrom_all_fail env (maxRetriesOf cfg) (maxAttempts cfg) 1
      (fun i hi1 hi2 => hp i hi1 (by omega))
      (fun i hi1 hi2 => hc i hi1 (by omega))
  · intro i hi1 hi2 hp hnc hcan
    rw [runTests, if_neg h2]
    exact runTestsFrom_canceled env (maxRetriesOf cfg) (maxAttempts cfg) 1 i hi1 (by omega)
      hp hnc hcan
  · intro i hi1 hi2 hp hmin
    rw [runTests, if_neg h2]
    exact runTestsFrom_pass env (maxRetriesOf cfg) (maxAttempts cfg) 1 i hi1 (by omega)
      hp hmin

/-- A test environment for the C4 witness: attempt 1 fails without a
cancelation, attempt 2 fails and then observes the canceled context. -/
def testEnvW : TestEnv :=
  { passes := fun _ => false
    canceledAfter := fun n => decide (2 ≤ n) }

/-- A config for the C4 witness: tests enabled, a command configured and
three flaky-test retries. -/
def cfgW : MergeQueueConfig :=
  { defaultMergeQueueConfig with testCommand := "go test ./...", retryFlakyTests := 3 }

/-- Witness for C4: with three configured attempts, all failing, a context
canceled after the second attempt yields the "test run canceled" report
with TestsFailed unset. -/
theorem runTests_retry_and_cancel_witness :
    runTests testEnvW cfgW =
      { success := false, error := "test run canceled", testsFailed := false } :=
  (runTests_retry_and_cancel testEnvW cfgW rfl (by decide)).2.2.1 2 (by decide) (by decide)
    (by intro j hj1 hj2; rfl)
    (by intro j hj1 hj2
        have : j = 1 := by omega
        subst this
        rfl)
    (by decide)

/-- `mrqueue.MR`: the fields of the queue's merge-request record that the
conflict path reads or writes. -/
structure MR where
  id : String
  branch : String
  target : String
  worker : String
  sourceIssue : String
  agentBead : String
  priority : Int
  retryCount : Int
  blockedBy : String
deriving Repr, DecidableEq

/-- A tracker issue of type task, as `createConflictResolutionTask`
creates it. -/
structure Task where
  id : String
  title : String
  taskType : String
  priority : Int
  description : String
  actor : String
  status : String
deriving Repr, DecidableEq

/-- Modelled from the spec: the tracker-backed state the conflict path
manipulates.  `beads.MergeSlotAcquire`, `beads.Create` and
`mrqueue.SetBlockedBy` are not part of this source snapshot; per spec §3,
§4.5 and §4.6 the merge slot is a rig-scoped exclusion token with exactly
one holder, `Create` adds a new open issue under a fresh id, and
`SetBlockedBy` records the given task id on the MR. -/
structure EngineState where
  slotHolder : Option String
  tasks : List Task
deriving Repr, DecidableEq

/-- The status `MergeSlotAcquire` reports. -/
structure SlotStatus where
  available : Bool
  holder : String
deriving Repr, DecidableEq

/-- Modelled from the spec: acquiring the merge slot.  A free slot is
acquired and recorded for the holder; a held slot is left alone and its
holder reported. -/
def mergeSlotAcquire (holder : String) (slot : Option String) :
    SlotStatus × Option String :=
  match slot with
  | none => ({ available := true, holder := holder }, some holder)
  | some h => ({ available := false, holder := h }, some h)

/-- The templated description block of the conflict-resolution task
(`createConflictResolutionTask` in the refinery engineer file). -/
def conflictTaskDescription (mr : MR) (mainSHA : String) (retryCount : Int) : String :=
  "Resolve merge conflicts for branch " ++ mr.branch ++ "\n\n" ++
  "## Metadata\n" ++
  "- Original MR: " ++ mr.id ++ "\n" ++
  "- Branch: " ++ mr.branch ++ "\n" ++
  "- Conflict with: " ++ mr.target ++ "@" ++ mainSHA.take 8 ++ "\n" ++
  "- Original issue: " ++ mr.sourceIssue ++ "\n" ++
  "- Retry count: " ++ toString retryCount ++ "\n\n" ++
  "## Instructions\n" ++
  "1. Check out the branch: git checkout " ++ mr.branch ++ "\n" ++
  "2. Rebase onto target: git rebase origin/" ++ mr.target ++ "\n" ++
  "3. Resolve conflicts in your editor\n" ++
  "4. Complete the rebase: git add . && git rebase --continue\n" ++
  "5. Force-push the resolved branch: git push -f\n" ++
  "6. Close this task: bd close <this-task-id>\n\n" ++
  "The Refinery will automatically retry the merge after you force-push."

/-- `createConflictResolutionTask` from the refinery engineer file, over
the modelled tracker state, in a run where the tracker operations succeed.
`rigName` names the engine's rig; `freshTaskId` is the id the tracker
assigns to the new task; `mainSHA` is `git rev-parse origin/<target>`;
`originalTitle` is the source issue's title (the source issue id when the
lookup fails).  When the slot is held by a different non-empty holder the
task is deferred: the returned id is "" and nothing changes.  Otherwise
the task is created open with boosted priority `max(priority - 1, 0)` and
the MR's retry count is incremented. -/
def createConflictResolutionTask (rigName : String) (st : EngineState) (mr : MR)
    (freshTaskId mainSHA originalTitle : String) : String × EngineState × MR :=
  let holder := rigName ++ "/refinery"
  let acq := mergeSlotAcquire holder st.slotHolder
  if !acq.1.available && (acq.1.holder != "") && (acq.1.holder != holder) then
    ("", { st with slotHolder := acq.2 }, mr)
  else
    let boostedPriority := if mr.priority - 1 < 0 then 0 else mr.priority - 1
    let rc := mr.retryCount + 1
    let task : Task :=
      { id := freshTaskId
        title := "Resolve merge conflicts: " ++ originalTitle
        taskType := "task"
        priority := boostedPriority
        description := conflictTaskDescription mr mainSHA rc
        actor := holder
        status := "open" }
    (freshTaskId, { st with slotHolder := acq.2, tasks := st.tasks ++ [task] },
      { mr with retryCount := rc })

/-- `handleFailureFromQueue` from the refinery engineer file, restricted to
its effect on the modelled state (event logging and the witness
notification do not touch it), in a run where the tracker operations
succeed.  A conflict result creates (or defers) the resolution task and —
since the creation call returned no error — records the returned task id
on the MR via `SetBlockedBy`, the empty id included; a non-conflict
failure changes nothing. -/
def handleFailureFromQueue (rigName : String) (st : EngineState) (mr : MR)
    (result : ProcessResult) (freshTaskId mainSHA originalTitle : String) :
    EngineState × MR :=
  if result.conflict then
    let r := createConflictResolutionTask rigName st mr freshTaskId mainSHA originalTitle
    (r.2.1, { r.2.2 with blockedBy := r.1 })
  else (st, mr)

/-- A concrete merge request for the C1 theorems. -/
def mrC : MR :=
  { id := "gt-mr-1"
    branch := "polecat/nux/gt-9"
    target := "main"
    worker := "nux"
    sourceIssue := "gt-9"
    agentBead := ""
    priority := 2
    retryCount := 0
    blockedBy := "" }

/-- A concrete conflict result for the C1 theorems. -/
def resC : ProcessResult :=
  { success := false, conflict := true, error := "merge conflict during actual merge" }

/-- Counterexample for C1: with the merge slot held by a different holder,
`handleFailureFromQueue` on a conflict leaves the slot with its holder and
creates no task (so the first claimed outcome fails) and does NOT
increment the MR's retry count (so the second claimed outcome fails too —
the deferred return happens before the increment). -/
theorem conflict_deferred_no_retry_increment :
    (handleFailureFromQueue "gastown" { slotHolder := some "otherrig/refinery", tasks := [] }
        mrC resC "task-1" "abcdef1234" "fix parser").1.slotHolder ≠
      some ("gastown" ++ "/refinery")
    ∧ (handleFailureFromQueue "gastown"
        { slotHolder := some "otherrig/refinery", tasks := [] }
        mrC resC "task-1" "abcdef1234" "fix parser").1.tasks = []
    ∧ (handleFailureFromQueue "gastown"
        { slotHolder := some "otherrig/refinery", tasks := [] }
        mrC resC "task-1" "abcdef1234" "fix parser").2.retryCount ≠
      mrC.retryCount + 1 := by decide

/-- C1 (amended): after `handleFailureFromQueue` on a conflict result, in a
run where the tracker operations succeed, exactly one of two outcomes
holds.  If the slot was free or already this engine's, the rig's merge
slot is held by this engine, a newly created open conflict-resolution task
(type "task", boosted priority `max(priority-1, 0)`, titled after the
original issue) is appended to the tracker, the MR's blocked_by is set to
its id, and the MR's retry count is incremented.  If the slot was held by
a different non-empty holder, the tracker state is unchanged — the slot
keeps its holder and no task is created — and the MR's retry count is NOT
incremented; its blocked_by is overwritten with the empty string. -/
theorem handle_failure_conflict_dichotomy (rigName : String) (st : EngineState)
    (mr : MR) (result : ProcessResult) (tid sha title : String)
    (hc : result.conflict = true) :
    ((st.slotHolder = none ∨ st.slotHolder = some (rigName ++ "/refinery")) →
      (handleFailureFromQueue rigName st mr result tid sha title).1.slotHolder =
          some (rigName ++ "/refinery")
      ∧ (handleFailureFromQueue rigName st mr result tid sha title).1.tasks =
          st.tasks ++
            [{ id := tid
               title := "Resolve merge conflicts: " ++ title
               taskType := "task"
               priority := if mr.priority - 1 < 0 then 0 else mr.priority - 1
               description := conflictTaskDescription mr sha (mr.retryCount + 1)
               actor := rigName ++ "/refinery"
               status := "open" }]
      ∧ (handleFailureFromQueue rigName st mr result tid sha title).2.blockedBy = tid
      ∧ (handleFailureFromQueue rigName st mr result tid sha title).2.retryCount =
          mr.retryCount + 1)
    ∧ (∀ h, st.slotHolder = some h → h ≠ rigName ++ "/refinery" → h ≠ "" →
        (handleFailureFromQueue rigName st mr result tid sha title).1 = st
        ∧ (handleFailureFromQueue rigName st mr result tid sha title).2 =
            { mr with blockedBy := "" }) := by
  constructor
  · rintro (hslot | hslot) <;>
      simp [handleFailureFromQueue, createConflictResolutionTask, mergeSlotAcquire,
        hc, hslot]
  · intro h hslot hne hne2
    have hbne : (h != rigName ++ "/refinery") = true := by
      simpa using hne
    have hbne2 : (h != "") = true := by
      simpa using hne2
    constructor
    · simp only [handleFailureFromQueue, createConflictResolutionTask, mergeSlotAcquire,
        hc, hslot, hbne, hbne2, Bool.not_false, Bool.and_true, Bool.true_and, Bool.and_self,
        if_true]
      rw [← hslot]
    · simp only [handleFailureFromQueue, createConflictResolutionTask, mergeSlotAcquire,
        hc, hslot, hbne, hbne2, Bool.not_false, Bool.and_true, Bool.true_and, Bool.and_self,
        if_true]

/-- Witness for C1's amended theorem: with a free slot, the engine acquires
it, creates the open conflict task, blocks the MR on it and bumps the
retry count. -/
theorem handle_failure_conflict_dichotomy_witness :
    (handleFailureFromQueue "gastown" { slotHolder := none, tasks := [] }
        mrC resC "task-1" "abcdef1234" "fix parser").1.slotHolder =
      some ("gastown" ++ "/refinery")
    ∧ (handleFailureFromQueue "gastown" { slotHolder := none, tasks := [] }
        mrC resC "task-1" "abcdef1234" "fix parser").1.tasks =
        [] ++
          [{ id := "task-1"
             title := "Resolve merge conflicts: " ++ "fix parser"
             taskType := "task"
             priority := if mrC.priority - 1 < 0 then 0 else mrC.priority - 1
             description := conflictTaskDescription mrC "abcdef1234" (mrC.retryCount + 1)
             actor := "gastown" ++ "/refinery"
             status := "open" }]
    ∧ (handleFailureFromQueue "gastown" { slotHolder := none, tasks := [] }
        mrC resC "task-1" "abcdef1234" "fix parser").2.blockedBy = "task-1"
    ∧ (handleFailureFromQueue "gastown" { slotHolder := none, tasks := [] }
        mrC resC "task-1" "abcdef1234" "fix parser").2.retryCount = mrC.retryCount + 1 :=
  handle_failure_conflict_dichotomy "gastown" { slotHolder := none, tasks := [] }
    mrC resC "task-1" "abcdef1234" "fix parser" rfl |>.1 (Or.inl rfl)

end Refinery

end Gastown
